import Mathlib

/-!
Verification of the Modbus PDU layer of `umodbus/_functions/__init__.py`
(repository Chris-mSo/uModbus).

The source file implements, for the client side of the Modbus application
protocol:
  * `create_function_from_response_pdu` — the dispatcher that parses a raw
    response PDU and routes it to a per-function-code decoder;
  * class `ReadCoils` (function code 1) — quantity validation (a property
    setter), request-PDU construction (`struct.pack` of `>BHH`), and response
    decoding that unpacks a packed bitfield;
  * class `ReadHoldingRegisters` (code 3) and `ReadInputRegisters` (code 4) —
    response decoding of big-endian 16-bit registers;
  * `function_code_to_function_map` — the registry, with entries for codes
    1, 3 and 4 only (the others are commented out).

Bytes are modelled as `List Nat`; Python exceptions become an explicit error
type and every fallible operation returns `Except`.  `struct.unpack` raising
`struct.error` on a size mismatch is modelled by the `structError` case.
-/

/-- Semantic kinds of the device-exception classes held by
`error_code_to_exception_map` (the names listed in the spec for standard
exception codes 1-11, plus the generic unknown kind). -/
inductive ErrorKind where
  | illegalFunction
  | illegalDataAddress
  | illegalDataValue
  | serverDeviceFailure
  | acknowledge
  | serverDeviceBusy
  | negativeAcknowledge
  | memoryParityError
  | gatewayPathUnavailable
  | gatewayTargetFailedToRespond
  | unknownDeviceException
  deriving DecidableEq, Repr

/-- The failures the embedded code can raise.
  * `illegalDataValueError` — the `IllegalDataValueError` raised by the
    `ReadCoils.quantity` property setter (the kind the spec's error taxonomy
    calls InvalidRequestParameter);
  * `structError` — `struct.error` from `struct.pack`/`struct.unpack` on a
    size or range mismatch (the kind the spec calls MalformedResponse);
  * `attributeError` — Python `AttributeError` (attribute assignment on a
    tuple, see `ReadInputRegisters.create_from_response_pdu`);
  * `typeError` — Python `TypeError` from calling a decoder with the wrong
    number of positional arguments at the dispatch site;
  * `device k` — `raise error_code_to_exception_map[c]`, a device-exception
    class of kind `k` (the spec's DeviceException / UnknownDeviceException);
  * `unknownFunctionCode` — the spec's UnknownFunctionCode kind; it is part
    of the spec's taxonomy but no line of the source produces it. -/
inductive ModbusError where
  | illegalDataValueError
  | structError
  | attributeError
  | typeError
  | device (k : ErrorKind)
  | unknownFunctionCode
  deriving DecidableEq, Repr

/-- Modelled from the spec: `error_code_to_exception_map` is imported from
`umodbus.exceptions`, a module of this repository that is not under `src/`.
Spec section 4.1: a fixed table maps the standard exception codes 1-11 to
the ten listed kinds (code 9 is unused by the standard), and unknown codes
map to a generic unknown-device-exception kind rather than failing the
lookup. -/
def error_code_to_exception_map : Nat → ErrorKind
  | 1 => .illegalFunction
  | 2 => .illegalDataAddress
  | 3 => .illegalDataValue
  | 4 => .serverDeviceFailure
  | 5 => .acknowledge
  | 6 => .serverDeviceBusy
  | 7 => .negativeAcknowledge
  | 8 => .memoryParityError
  | 10 => .gatewayPathUnavailable
  | 11 => .gatewayTargetFailedToRespond
  | _ => .unknownDeviceException

/-- A decoded response object.  `readCoils` carries `byte_count`, the
validated `quantity` and the decoded `data` list (the Python code stores
the bits as the ints 0/1, 1 meaning ON/true); `readHoldingRegisters` and
`readInputRegisters` carry `byte_count` and the register values. -/
inductive FunctionInstance where
  | readCoils (byte_count quantity : Nat) (data : List Nat)
  | readHoldingRegisters (byte_count : Nat) (data : List Nat)
  | readInputRegisters (byte_count : Nat) (data : List Nat)
  deriving DecidableEq, Repr

/-- Number of binary digits of `n`, written with explicit fuel so that the
recursion on `n / 2` is structural (the fuel `n` always suffices since the
bit length of `n` never exceeds `n` for `n ≥ 1`). -/
def bitLength : Nat → Nat → Nat
  | 0, _ => 0
  | _ + 1, 0 => 0
  | fuel + 1, n + 1 => bitLength fuel ((n + 1) / 2) + 1

/-- Number of digits of Python's minimal binary representation of `value`:
`format(0, 'b')` prints as the single digit `0`, otherwise the bit length
of `value`. -/
def pyBinWidth (value : Nat) : Nat :=
  max (bitLength value value) 1

/-- Model of the Python expression
`[int(c) for c in fmt.format(value)][::-1]` where `fmt` zero-pads the
binary representation of `value` to minimum field width `width`
(format spec `0<width>b`).  Python's format never truncates: when `value`
needs more than `width` digits, all of them appear.  The reversed digit
list is therefore the least-significant-first bit list of `value`, of
length `max width (pyBinWidth value)`. -/
def pyBinReversed (width value : Nat) : List Nat :=
  (List.range (max width (pyBinWidth value))).map (fun i => value / 2 ^ i % 2)

namespace ReadCoils

/-- The `ReadCoils.quantity` property setter:
raises `IllegalDataValueError` unless `1 <= value <= 2000`, otherwise
stores the value. -/
def set_quantity (value : Nat) : Except ModbusError Nat :=
  if ¬(1 ≤ value ∧ value ≤ 2000) then .error .illegalDataValueError
  else .ok value

/-- Building a Read Coils request: the caller assigns `quantity` through the
validating setter and then reads the `request_pdu` property, which packs
`'>BHH'` of (function code 1, starting_address, quantity).  `struct.pack`
raises `struct.error` when a `H` field does not fit in 16 bits; each `H`
is emitted as two big-endian bytes. -/
def build_request (starting_address quantity : Nat) : Except ModbusError (List Nat) :=
  match set_quantity quantity with
  | .error e => .error e
  | .ok q =>
    if starting_address ≥ 65536 then .error .structError
    else .ok [1, starting_address / 256, starting_address % 256, q / 256, q % 256]

/-- `ReadCoils.create_from_response_pdu(resp_pdu, quantity)`:
  1. `read_coils.quantity = quantity` — the validating setter, raising
     `IllegalDataValueError` for a quantity outside [1, 2000] before any
     byte of the PDU is touched;
  2. `byte_count = struct.unpack('>B', resp_pdu[1:2])[0]` — needs at least
     2 bytes, else `struct.error`;
  3. `struct.unpack('>' + 'B'*byte_count, resp_pdu[2:])` — `struct.error`
     unless the payload after the first two bytes has exactly `byte_count`
     bytes;
  4. for each payload byte `value` at index `i`:
     `padding = 8 if (quantity - 8*i) // 8 > 0 else quantity % 8`
     (Python floor division: `(quantity - 8*i) // 8 > 0` iff
     `8*i + 8 <= quantity`), then append
     `[int(c) for c in fmt.format(value)][::-1]` with minimum field width
     `padding` — see `pyBinReversed`. -/
def create_from_response_pdu (resp_pdu : List Nat) (quantity : Nat) :
    Except ModbusError FunctionInstance :=
  if ¬(1 ≤ quantity ∧ quantity ≤ 2000) then .error .illegalDataValueError
  else
    match resp_pdu with
    | _fc :: byte_count :: rest =>
      if rest.length ≠ byte_count then .error .structError
      else
        .ok (.readCoils byte_count quantity
          ((rest.enum.map (fun p =>
            pyBinReversed (if 8 * p.1 + 8 ≤ quantity then 8 else quantity % 8)
              p.2)).flatten))
    | _ => .error .structError

end ReadCoils

namespace ReadHoldingRegisters

/-- `ReadHoldingRegisters.create_from_response_pdu(pdu)`:
`_, byte_count = struct.unpack('>BB', pdu[:2])` (needs two bytes, else
`struct.error`), then `struct.unpack('>' + 'H' * (byte_count // 2), pdu[2:])`
— `struct.error` unless the payload length is exactly `2 * (byte_count // 2)`
— reading each register as two big-endian bytes. -/
def create_from_response_pdu (pdu : List Nat) : Except ModbusError FunctionInstance :=
  match pdu with
  | _fc :: byte_count :: rest =>
    if rest.length ≠ 2 * (byte_count / 2) then .error .structError
    else
      .ok (.readHoldingRegisters byte_count
        ((List.range (byte_count / 2)).map
          (fun i => 256 * rest.getD (2 * i) 0 + rest.getD (2 * i + 1) 0)))
  | _ => .error .structError

end ReadHoldingRegisters

namespace ReadInputRegisters

/-- `ReadInputRegisters.create_from_response_pdu(pdu)` as written in the
source: it initializes `read_input_registers = ()` (the empty tuple, not an
instance of the class), unpacks `'>BB'` from `pdu[:2]` (raising
`struct.error` when fewer than two bytes are present), and then executes
`read_input_registers.byte_count = byte_count`, which raises
`AttributeError` because a tuple accepts no attribute assignment.  Every
call with a PDU of at least two bytes therefore fails with
`AttributeError`. -/
def create_from_response_pdu (pdu : List Nat) : Except ModbusError FunctionInstance :=
  match pdu with
  | _fc :: _byte_count :: _rest => .error .attributeError
  | _ => .error .structError

end ReadInputRegisters

/-- Modelled from the spec only in its error table (see
`error_code_to_exception_map`); the control flow below is the source's:

`create_function_from_response_pdu(resp_pdu, *args, **kwargs)`:
  1. `function_code = struct.unpack('>B', resp_pdu[1:2])[0]` — the byte at
     index 1 (the SECOND byte of the PDU); fewer than two bytes raise
     `struct.error`;
  2. if that byte is not a key of `function_code_to_function_map`
     (whose keys are 1, 3 and 4), `raise error_code_to_exception_map[code]`;
  3. otherwise call the mapped class's `create_from_response_pdu` with
     `(resp_pdu, *args)`: `ReadCoils.create_from_response_pdu` takes exactly
     one extra argument (the quantity), the register decoders take none;
     any other arity raises `TypeError`. -/
def create_function_from_response_pdu (resp_pdu : List Nat) (args : List Nat) :
    Except ModbusError FunctionInstance :=
  match resp_pdu with
  | _ :: function_code :: _ =>
    if function_code = 1 then
      match args with
      | [quantity] => ReadCoils.create_from_response_pdu resp_pdu quantity
      | _ => .error .typeError
    else if function_code = 3 then
      match args with
      | [] => ReadHoldingRegisters.create_from_response_pdu resp_pdu
      | _ => .error .typeError
    else if function_code = 4 then
      match args with
      | [] => ReadInputRegisters.create_from_response_pdu resp_pdu
      | _ => .error .typeError
    else .error (.device (error_code_to_exception_map function_code))
  | _ => .error .structError

/-- Modelled from the spec: request construction for the register-style reads
(Read Holding Registers, code 3, and Read Input Registers, code 4) is absent
from `src/` — the two classes only carry response decoders.  Spec section
4.4: the request has the shape `[func:1][start_addr:2][quantity:2]` with
quantity in [1, 125], and validation happens at construction time, before
any byte is produced. -/
def registerRead_build_request (function_code starting_address quantity : Nat) :
    Except ModbusError (List Nat) :=
  if ¬(1 ≤ quantity ∧ quantity ≤ 125) then .error .illegalDataValueError
  else if starting_address ≥ 65536 then .error .structError
  else .ok [function_code, starting_address / 256, starting_address % 256,
            quantity / 256, quantity % 256]

/-- C1 (code bug): the claim says the function code that drives dispatch is
read from the first byte of the response PDU; the source instead unpacks
`resp_pdu[1:2]` — the second byte.  On the well-formed Read Holding
Registers response `03 04 00 0a 00 14` the dispatcher therefore keys on
`0x04` and runs the (always crashing) `ReadInputRegisters` decoder, even
though the code-3 decoder succeeds on this very PDU with registers
`[10, 20]`. -/
theorem c1_dispatch_keys_on_second_byte :
    create_function_from_response_pdu [3, 4, 0, 10, 0, 20] [] =
      .error .attributeError ∧
    ReadHoldingRegisters.create_from_response_pdu [3, 4, 0, 10, 0, 20] =
      .ok (.readHoldingRegisters 4 [10, 20]) :=
  ⟨rfl, rfl⟩

/-- C2 (code bug): the spec's concrete case holds — decoding `81 02` fails
with the device exception mapped to code 2 (IllegalDataAddress) — but only
by accident: the dispatcher never tests the high bit and simply reads the
second byte (here the exception code 2, unregistered as a function code)
and raises the error-map entry for it.  The general sentence fails: on the
exception response `81 01` the second byte 1 is a registered function code,
so the PDU is dispatched to `ReadCoils` and (with the quantity context 1)
dies with `struct.error`, not with a DeviceException of the kind mapped to
exception code 1. -/
theorem c2_no_high_bit_check :
    create_function_from_response_pdu [129, 2] [] =
      .error (.device .illegalDataAddress) ∧
    create_function_from_response_pdu [129, 1] [1] =
      .error .structError :=
  ⟨rfl, rfl⟩

/-- C3 counterexample: dispatching the PDU `09 09` (unregistered function
code 9 in the byte the dispatcher reads) does not fail with the claimed
UnknownFunctionCode: it raises the error-map entry for 9, the generic
unknown-device exception, which is a different error. -/
theorem c3_counterexample :
    create_function_from_response_pdu [9, 9] [] =
      .error (.device .unknownDeviceException) ∧
    ModbusError.device .unknownDeviceException ≠ ModbusError.unknownFunctionCode :=
  ⟨rfl, fun h => ModbusError.noConfusion h⟩

/-- C3 (amended): for every response PDU whose dispatch byte (the second
byte, see C1) is not a registered function code (1, 3 or 4), the dispatcher
raises the exception class found in the error mapping at that code — a
device-exception kind, UnknownDeviceException for codes outside the
standard table — and not a distinct UnknownFunctionCode error, which no
line of the source produces. -/
theorem c3_unregistered_code_raises_mapped_exception
    (fc code : Nat) (rest args : List Nat)
    (h1 : code ≠ 1) (h3 : code ≠ 3) (h4 : code ≠ 4) :
    create_function_from_response_pdu (fc :: code :: rest) args =
      .error (.device (error_code_to_exception_map code)) := by
  simp only [create_function_from_response_pdu]
  rw [if_neg h1, if_neg h3, if_neg h4]

/-- Witness for C3: the amended theorem applied to the PDU `09 09`. -/
theorem c3_witness :
    create_function_from_response_pdu [9, 9] [] =
      .error (.device (error_code_to_exception_map 9)) :=
  c3_unregistered_code_raises_mapped_exception 9 9 [] []
    (by decide) (by decide) (by decide)

/-- C4: for every exception code outside the standard table 1-11, the
error-mapping lookup used during exception-response decoding yields the
generic unknown-device-exception kind instead of failing.  (The mapping is
modelled from the spec, since `umodbus.exceptions` is not under `src/`.) -/
theorem c4_unknown_codes_map_to_unknown_kind
    (code : Nat) (h : ¬(1 ≤ code ∧ code ≤ 11)) :
    error_code_to_exception_map code = .unknownDeviceException := by
  rcases Nat.lt_or_ge code 12 with hlt | hge
  · interval_cases code
    · rfl
    all_goals exact absurd (by omega) h
  · obtain ⟨d, rfl⟩ : ∃ d, code = d + 12 := ⟨code - 12, by omega⟩
    rfl

/-- Witness for C4: code 12 is outside the table and maps to the unknown
kind. -/
theorem c4_witness :
    error_code_to_exception_map 12 = .unknownDeviceException :=
  c4_unknown_codes_map_to_unknown_kind 12 (by decide)

/-- C5 (code bug): the claim says a decoded Read Coils sequence has length
exactly the requested quantity, with trailing pad bits never surfaced.  On
the response `01 02 03 07` with quantity 10 (byte count 2 = ceil(10/8), a
well-formed frame except that a pad bit of the final byte is set), the
final byte 0x07 needs more digits than the computed field width 10 % 8 = 2,
Python's format does not truncate, and the decoder returns 11 booleans —
the pad bit is surfaced and the length is not the quantity. -/
theorem c5_pad_bits_surfaced :
    ReadCoils.create_from_response_pdu [1, 2, 3, 7] 10 =
      .ok (.readCoils 2 10 [1, 1, 0, 0, 0, 0, 0, 0, 1, 1, 1]) ∧
    [1, 1, 0, 0, 0, 0, 0, 0, 1, 1, 1].length = 11 :=
  ⟨rfl, rfl⟩

/-- C6: bit-unpacking decodes low-to-high within each byte: the response
`01 01 03` (single payload byte 0x03) with quantity 3 decodes to
`[1, 1, 0]` — that is, [true, true, false] with 1 meaning ON/true — and the
same byte with quantity 2 decodes to `[1, 1]` = [true, true]. -/
theorem c6_bit_unpacking_low_to_high :
    ReadCoils.create_from_response_pdu [1, 1, 3] 3 =
      .ok (.readCoils 1 3 [1, 1, 0]) ∧
    ReadCoils.create_from_response_pdu [1, 1, 3] 2 =
      .ok (.readCoils 1 2 [1, 1]) :=
  ⟨rfl, rfl⟩

/-- C7: for every quantity outside [1, 2000], building a Read Coils request
fails with the out-of-range error raised by the validating setter (the
spec's InvalidRequestParameter, the source's `IllegalDataValueError`) and
no request bytes are produced; likewise for register-style reads with a
quantity outside [1, 125] (register-style request construction is modelled
from the spec, being absent from `src/`). -/
theorem c7_out_of_range_quantity_rejected :
    (∀ starting_address quantity, ¬(1 ≤ quantity ∧ quantity ≤ 2000) →
      ReadCoils.build_request starting_address quantity =
        .error .illegalDataValueError) ∧
    (∀ function_code starting_address quantity,
      ¬(1 ≤ quantity ∧ quantity ≤ 125) →
      registerRead_build_request function_code starting_address quantity =
        .error .illegalDataValueError) := by
  constructor
  · intro a q h
    simp only [ReadCoils.build_request, ReadCoils.set_quantity]
    rw [if_pos h]
  · intro fc a q h
    simp only [registerRead_build_request]
    rw [if_pos h]

/-- Witness for C7: quantity 2001 (coil-style) and quantity 126
(register-style) are both rejected. -/
theorem c7_witness :
    ReadCoils.build_request 0 2001 = .error .illegalDataValueError ∧
    registerRead_build_request 3 0 126 = .error .illegalDataValueError :=
  ⟨c7_out_of_range_quantity_rejected.1 0 2001 (by decide),
   c7_out_of_range_quantity_rejected.2 3 0 126 (by decide)⟩

/-- C8 (code bug): a well-formed code-3 response `03 04 00 0a 00 14`
decodes to big-endian registers `[10, 20]` as the claim states, but the
code-4 decoder never returns data: `ReadInputRegisters.create_from_response_pdu`
initializes its result as the empty tuple `()` and crashes with
`AttributeError` on the same register payload. -/
theorem c8_input_register_decoder_crashes :
    ReadHoldingRegisters.create_from_response_pdu [3, 4, 0, 10, 0, 20] =
      .ok (.readHoldingRegisters 4 [10, 20]) ∧
    ReadInputRegisters.create_from_response_pdu [4, 4, 0, 10, 0, 20] =
      .error .attributeError :=
  ⟨rfl, rfl⟩

/-- C9 counterexample: the register response `03 05 00 0a 00 14` declares a
byte count of 5 while the payload that follows holds 4 bytes, yet decoding
succeeds with `[10, 20]` instead of failing with MalformedResponse: the
decoder unpacks `byte_count // 2` registers, so an odd byte count one
larger than the payload length goes unnoticed. -/
theorem c9_counterexample :
    ReadHoldingRegisters.create_from_response_pdu [3, 5, 0, 10, 0, 20] =
      .ok (.readHoldingRegisters 5 [10, 20]) :=
  rfl

/-- C9 (amended): a Read Coils decode whose declared byte count differs
from the actual payload length fails with `struct.error` (the kind the spec
names MalformedResponse) once the quantity context is valid; a register
decode fails with `struct.error` only when the payload length differs from
`2 * (byte_count // 2)` — an odd byte count with a payload one byte
shorter is accepted without any failure. -/
theorem c9_byte_count_mismatch
    (fc byte_count : Nat) (rest : List Nat) :
    (∀ q, 1 ≤ q → q ≤ 2000 → rest.length ≠ byte_count →
      ReadCoils.create_from_response_pdu (fc :: byte_count :: rest) q =
        .error .structError) ∧
    (rest.length ≠ 2 * (byte_count / 2) →
      ReadHoldingRegisters.create_from_response_pdu (fc :: byte_count :: rest) =
        .error .structError) := by
  constructor
  · intro q h1 h2 hne
    simp only [ReadCoils.create_from_response_pdu]
    rw [if_neg (not_not_intro ⟨h1, h2⟩), if_pos hne]
  · intro hne
    simp only [ReadHoldingRegisters.create_from_response_pdu]
    rw [if_pos hne]

/-- Witness for C9: the coil response `01 02 03` (declared byte count 2,
one payload byte) and the register response `03 04 00 0a` (declared byte
count 4, two payload bytes) both fail with `struct.error`. -/
theorem c9_witness :
    ReadCoils.create_from_response_pdu [1, 2, 3] 3 = .error .structError ∧
    ReadHoldingRegisters.create_from_response_pdu [3, 4, 0, 10] =
      .error .structError :=
  ⟨(c9_byte_count_mismatch 1 2 [3]).1 3 (by decide) (by decide) (by decide),
   (c9_byte_count_mismatch 3 4 [0, 10]).2 (by decide)⟩

/-- C10: `ReadCoils.create_from_response_pdu` assigns its quantity argument
through the validating property setter before touching the PDU, so for
every quantity outside [1, 2000] the decode fails with
`IllegalDataValueError` whatever the response bytes are — in particular
before any payload byte is parsed. -/
theorem c10_decode_validates_quantity_first
    (resp_pdu : List Nat) (quantity : Nat)
    (h : ¬(1 ≤ quantity ∧ quantity ≤ 2000)) :
    ReadCoils.create_from_response_pdu resp_pdu quantity =
      .error .illegalDataValueError := by
  simp only [ReadCoils.create_from_response_pdu]
  rw [if_pos h]

/-- Witness for C10: quantity 2001 is rejected even on an empty PDU. -/
theorem c10_witness :
    ReadCoils.create_from_response_pdu [] 2001 = .error .illegalDataValueError :=
  c10_decode_validates_quantity_first [] 2001 (by decide)
